import Mathlib

/-!
Verification development for the getIcons repository.

The repository holds two near-duplicate Python scripts,
`scripts/fetch_flaticon.py` (batch-by-label) and
`workflows/fetch_flaticon.py` (batch-by-query).  Both authenticate
against the Flaticon API, search for icons and download the matched
assets.  This file shallowly embeds the two scripts: strings are
`List Char` / `String`, the network is an oracle `Req → Resp`, side
effects (network calls, directory creation, file writes, stdout and
stderr lines) are collected in an event trace, and Python exceptions
are `Except PyErr`.
-/

deriving instance DecidableEq for Except

namespace GetIcons

/-! ## Python string primitives, modelled on `List Char` -/

/-- Characters Python's `str.strip()` and the regex `\s` treat as whitespace
(ASCII fragment). -/
def pyWs (c : Char) : Bool :=
  c = ' ' || c = '\t' || c = '\n' || c = '\r' || c = '\x0b' || c = '\x0c'

/-- `str.strip()`: drop leading and trailing whitespace. -/
def pyStrip (l : List Char) : List Char :=
  ((l.dropWhile pyWs).reverse.dropWhile pyWs).reverse

/-- ASCII lower-casing of one character (`str.lower()` restricted to ASCII). -/
def lowerChar (c : Char) : Char :=
  if 'A' ≤ c && c ≤ 'Z' then Char.ofNat (c.toNat + 32) else c

/-- `str.lower()` (ASCII model). -/
def pyLower (l : List Char) : List Char := l.map lowerChar

/-- Is `k` a prefix of `s`? -/
def isPre : List Char → List Char → Bool
  | [], _ => true
  | _ :: _, [] => false
  | a :: as, b :: bs => a = b && isPre as bs

/-- Is `sub` a substring (contiguous) of `s`?  Models Python's `in`. -/
def isSub (sub : List Char) : List Char → Bool
  | [] => sub.isEmpty
  | c :: rest => isPre sub (c :: rest) || isSub sub rest

/-- One step of Python's `str.replace`: scan left to right, replace each
leftmost non-overlapping occurrence of `k` by `v`.  The `fuel` argument is
only a structural-recursion bound; `replaceAll` supplies `s.length`, which
is always enough because every step consumes at least one character. -/
def repGo (k v : List Char) : Nat → List Char → List Char
  | _, [] => []
  | 0, s => s
  | Nat.succ fuel, c :: rest =>
    if isPre k (c :: rest) && !k.isEmpty then
      v ++ repGo k v fuel (List.drop (k.length - 1) rest)
    else
      c :: repGo k v fuel rest

/-- Python's `s.replace(k, v)` (for nonempty `k`, as used by the scripts). -/
def replaceAll (k v s : List Char) : List Char := repGo k v s.length s

/-- Replace every maximal run of characters satisfying `p` by the single
character `rep`; models `re.sub(r"X+", rep, s)` for a character class `X`. -/
def collapseRuns (p : Char → Bool) (rep : Char) : List Char → List Char
  | [] => []
  | [c] => if p c then [rep] else [c]
  | c :: d :: rest =>
    if p c then
      if p d then collapseRuns p rep (d :: rest)
      else rep :: collapseRuns p rep (d :: rest)
    else c :: collapseRuns p rep (d :: rest)

/-- `str.strip(x)` for a single character `x`. -/
def stripChar (x : Char) (l : List Char) : List Char :=
  ((l.dropWhile (fun c => c = x)).reverse.dropWhile (fun c => c = x)).reverse

/-- `s[:n]` for a natural bound. -/
def strTake (n : Nat) (s : String) : String := String.mk (s.toList.take n)

/-! ## Data model -/

/-- The two download formats accepted by `--format` (argparse `choices`). -/
inductive Fmt
  | png
  | svg
deriving DecidableEq

def fmtStr : Fmt → String
  | Fmt.png => "png"
  | Fmt.svg => "svg"

/-- `ext = "svg" if fmt == "svg" else "png"`, shared by both scripts. -/
def fmtExt (f : Fmt) : String := if f = Fmt.svg then "svg" else "png"

/-- The two search orderings accepted by `--order`. -/
inductive OrderBy
  | priority
  | added
deriving DecidableEq

def orderStr : OrderBy → String
  | OrderBy.priority => "priority"
  | OrderBy.added => "added"

/-- A search-result record; the scripts read only its `id` field
(`icon.get("id")`, absent key modelled as `none`). -/
structure Item where
  id : Option Int
deriving DecidableEq

/-- Python truthiness of `icon.get("id")`: `None` and `0` are falsy. -/
def pyFalsyId (it : Item) : Bool :=
  match it.id with
  | none => true
  | some i => i = 0

/-- Requests the scripts can issue. -/
inductive Req
  | auth (apikey : String)
  | search (ob q : String) (limitParam : Int) (page : Nat)
  | resolveQuery (id : Int) (fmt : String) (size : Option Int)
  | resolvePath (id : Int) (fmt : String) (size : Option Int)
  | asset (url : String)
deriving DecidableEq

/-- A server response, with the JSON fields the scripts read (a missing
key is `none`; `data` defaults to `[]` as in `payload.get("data", [])`).
`jsonUrl` is the result of `r.json()["data"]["url"]` when that extraction
succeeds, `none` when it raises. -/
structure Resp where
  status : Nat
  token : Option String
  body : String
  data : List Item
  metaPage : Option Int
  metaTotal : Option Int
  metaCount : Option Int
  jsonUrl : Option String
  ctype : Option String
  content : String
deriving DecidableEq

/-- A bare 404 response with nothing in it, used as a base for literals. -/
def respBase : Resp :=
  ⟨404, none, "", [], none, none, none, none, none, ""⟩

/-- Observable effects of a run. -/
inductive Ev
  | call (r : Req)
  | mkdirp (dir : String)
  | write (path content : String)
  | out (line : String)
  | err (line : String)
deriving DecidableEq

/-- Python exceptions raised by the scripts. -/
inductive PyErr
  | typeError
  | attributeError
  | runtimeError (msg : String)
deriving DecidableEq

/-- How a process run ends: falling off `main` (exit 0), an explicit
`sys.exit(code)`, or an uncaught exception (the interpreter exits 1). -/
inductive RunEnd
  | finished
  | exited (code : Nat)
  | crashed (e : PyErr)
deriving DecidableEq

def exitCode : RunEnd → Nat
  | RunEnd.finished => 0
  | RunEnd.exited n => n
  | RunEnd.crashed _ => 1

def isCrashed : RunEnd → Bool
  | RunEnd.crashed _ => true
  | _ => false

/-- Truthiness of `os.getenv(...)`: `None` or the empty string. -/
def pyFalsyOpt : Option String → Bool
  | none => true
  | some s => s = ""

/-! ## Authenticator (`get_token`, identical in both scripts) -/

/-- `get_token`: POST the key, require HTTP 200 and a truthy `token` field;
anything else raises. -/
def get_token (oracle : Req → Resp) (apiKey : String) : Except PyErr String :=
  let r := oracle (Req.auth apiKey)
  if r.status ≠ 200 then
    Except.error (PyErr.runtimeError ("Auth failed: " ++ toString r.status ++ " " ++ r.body))
  else
    match r.token with
    | none => Except.error (PyErr.runtimeError "Auth response missing token")
    | some t =>
      if t = "" then Except.error (PyErr.runtimeError "Auth response missing token")
      else Except.ok t

/-- Did the one authentication exchange fail (non-200, or 200 without a
truthy `token` field)? -/
def authFails (r : Resp) : Bool :=
  r.status ≠ 200 || r.token = none || r.token = some ""

/-! ## Filename sanitizers -/

/-- Characters of the class `[a-z0-9._-]`. -/
def validChar (c : Char) : Bool :=
  ('a' ≤ c && c ≤ 'z') || ('0' ≤ c && c ≤ '9') || c = '.' || c = '_' || c = '-'

/-- `scripts/fetch_flaticon.py` `safe_filename`.  Its third line is
`t = re.sub(r"[./]+", "-")`, which is missing `re.sub`'s required third
argument (the string), so every call raises `TypeError` before anything
is returned. -/
def s_safe_filename (text : String) : Except PyErr String :=
  let t := pyLower (pyStrip text.toList)
  let _t2 := replaceAll "&".toList "and".toList t
  Except.error PyErr.typeError

/-- `workflows/fetch_flaticon.py` `safe_filename`: lower-case and strip,
replace runs of characters outside `[a-z0-9._-]` by `-`, collapse runs of
`-`, strip `-` from both ends, and fall back to `"icon"`. -/
def w_safe_filename (text : String) : String :=
  let t := pyLower (pyStrip text.toList)
  let t := collapseRuns (fun c => !validChar c) '-' t
  let t := collapseRuns (fun c => c = '-') '-' t
  let t := stripChar '-' t
  if t = [] then "icon" else String.mk t

/-! ## Query normalizer (batch-by-label script only) -/

/-- The fixed ordered substitution table of `normalize_query`
(a Python dict, which iterates in insertion order). -/
def fixes : List (String × String) :=
  [("e.guitar", "electric guitar"),
   ("e.piano", "electric piano"),
   ("drumkit", "drum kit"),
   ("sub category", "subcategory"),
   ("choir&vocals", "choir vocals"),
   ("church&christmas", "church christmas"),
   ("euro dance", "eurodance"),
   ("euro organ artist", "organ artist"),
   ("fm xpanded", "fm expanded"),
   ("japanes", "japanese"),
   ("vietnamise", "vietnamese"),
   ("bariton", "baritone"),
   ("sa 2", "sa2")]

/-- `normalize_query`: trim, lower-case, normalize the two Unicode dashes,
apply the substitution table in order (substring containment), turn
periods into spaces, collapse whitespace, and fall back to the trimmed
original when the result is empty. -/
def normalize_query (label : String) : String :=
  let raw := pyStrip label.toList
  let key := pyStrip (pyLower raw)
  let key := replaceAll "–".toList "-".toList key
  let key := replaceAll "—".toList "-".toList key
  let key := fixes.foldl
    (fun k kv => if isSub kv.1.toList k then replaceAll kv.1.toList kv.2.toList k else k) key
  let key := replaceAll ".".toList " ".toList key
  let key := pyStrip (collapseRuns pyWs ' ' key)
  if key = [] then String.mk raw else String.mk key

/-! ## Searcher -/

/-- `meta.get("page", 1) * 1 >= meta.get("total", meta.get("count", 0))`:
the pagination-termination test of the batch-by-query searcher. -/
def metaCond (r : Resp) : Bool :=
  r.metaTotal.getD (r.metaCount.getD 0) ≤ r.metaPage.getD 1 * 1

def searchErrMsg (r : Resp) : String :=
  "Search error: " ++ toString r.status ++ " " ++ r.body

/-- One page of the searcher's trace: the page number and `limit`
parameter it sent, and the response it got. -/
structure SearchPage where
  pageNum : Nat
  limitParam : Int
  resp : Resp
deriving DecidableEq

/-- The `while len(out) < limit` loop of `search_icons`.  `fuel` is only a
structural-recursion bound: every iteration that continues appends at
least one item, so `limit.toNat` fuel can never run out (the fuel-zero
branch repeats the loop-exit result and is unreachable from
`search_icons`). -/
def searchLoop (oracle : Req → Resp) (ob q : String) (limit : Int) :
    Nat → List Item → Nat → List SearchPage × Except PyErr (List Item)
  | fuel, out, page =>
    if ((out.length : Int)) < limit then
      let lp : Int := min 100 (limit - (out.length : Int))
      let r := oracle (Req.search ob q lp page)
      let e : SearchPage := ⟨page, lp, r⟩
      if r.status ≠ 200 then ([e], Except.error (PyErr.runtimeError (searchErrMsg r)))
      else if r.data = [] then ([e], Except.ok out)
      else if metaCond r then ([e], Except.ok (out ++ r.data))
      else
        match fuel with
        | 0 => ([e], Except.ok (out ++ r.data))
        | Nat.succ m =>
          let p := searchLoop oracle ob q limit m (out ++ r.data) (page + 1)
          (e :: p.1, p.2)
    else ([], Except.ok out)

/-- Python's `out[:limit]` for an `int` bound (negative bounds count from
the end, clamped at zero). -/
def pySliceTo (l : List Item) (k : Int) : List Item :=
  if k < 0 then l.take (l.length - min l.length (-k).toNat)
  else l.take k.toNat

/-- `search_icons` of the batch-by-query script: paginated search, page
size capped at 100, final `return out[:limit]`.  Also returns the trace
of pages requested. -/
def search_icons (oracle : Req → Resp) (ob q : String) (limit : Int) :
    List SearchPage × Except PyErr (List Item) :=
  let r := searchLoop oracle ob q limit limit.toNat [] 1
  (r.1, r.2.map (fun out => pySliceTo out limit))

/-- `search_first_icon` of the batch-by-label script: one request with
`limit=1, page=1`; `data[0] if data else None`. -/
def search_first_icon (oracle : Req → Resp) (q ob : String) :
    Req × Except PyErr (Option Item) :=
  let req := Req.search ob q 1 1
  let r := oracle req
  if r.status ≠ 200 then (req, Except.error (PyErr.runtimeError (searchErrMsg r)))
  else (req, Except.ok r.data.head?)

/-! ## Downloader (identical resolve phase in both scripts) -/

/-- `params["size"] = size` only when the format is png and `size` is
truthy (both scripts guard with `if fmt == "png" and size`). -/
def sizeParam (fmt : Fmt) (size : Int) : Option Int :=
  if fmt = Fmt.png ∧ size ≠ 0 then some size else none

/-- The query-parameter-style resolve request. -/
def reqQ (id : Int) (fmt : Fmt) (size : Int) : Req :=
  Req.resolveQuery id (fmtStr fmt) (sizeParam fmt size)

/-- The path-style resolve request (format as a path segment, same size
handling). -/
def reqP (id : Int) (fmt : Fmt) (size : Int) : Req :=
  Req.resolvePath id (fmtStr fmt) (sizeParam fmt size)

/-- The sequence of resolve requests issued: the query-style one, then,
exactly when it returned 404, the path-style one. -/
def resolveCalls (oracle : Req → Resp) (id : Int) (fmt : Fmt) (size : Int) : List Req :=
  if (oracle (reqQ id fmt size)).status = 404 then [reqQ id fmt size, reqP id fmt size]
  else [reqQ id fmt size]

/-- The response the download continues with after the one optional
fallback. -/
def resolveFinal (oracle : Req → Resp) (id : Int) (fmt : Fmt) (size : Int) : Resp :=
  if (oracle (reqQ id fmt size)).status = 404 then oracle (reqP id fmt size)
  else oracle (reqQ id fmt size)

/-- `f"Download error for {icon_id}: {r.status_code} {r.text}"`. -/
def dlErr (id : Int) (r : Resp) : String :=
  "Download error for " ++ toString id ++ ": " ++ toString r.status ++ " " ++ r.body

/-- `"Content-Type" in r.headers and ("image/" in ct or "svg" in ct)`. -/
def ctypeImage (r : Resp) : Bool :=
  match r.ctype with
  | none => false
  | some ct => isSub "image/".toList ct.toList || isSub "svg".toList ct.toList

/-- `ext = "svg" if "svg" in r.headers["Content-Type"] else "png"`
(the workflows script's direct-binary branch). -/
def ctypeExt (r : Resp) : String :=
  match r.ctype with
  | none => "png"
  | some ct => if isSub "svg".toList ct.toList then "svg" else "png"

def unexpectedMsg (id : Int) (r : Resp) : String :=
  "Unexpected download response for " ++ toString id ++ ": " ++ strTake 500 r.body

/-- `requests.raise_for_status()` raises exactly for 4xx and 5xx. -/
def httpError (s : Nat) : Bool := 400 ≤ s && s < 600

/-- `download_icon` of the batch-by-label script: resolve (with the one
404 fallback), then either follow the JSON envelope's asset URL (if the
extracted `u` is truthy) or save the direct binary payload; always writes
to the caller-supplied `dest`. -/
def s_download_icon (oracle : Req → Resp) (_tok : String) (id : Int) (fmt : Fmt)
    (size : Int) (dest : String) : List Ev × Except PyErr Unit :=
  let calls := (resolveCalls oracle id fmt size).map Ev.call
  let r := resolveFinal oracle id fmt size
  if r.status ≠ 200 then (calls, Except.error (PyErr.runtimeError (dlErr id r)))
  else
    let binary : List Ev × Except PyErr Unit :=
      if ctypeImage r then (calls ++ [Ev.write dest r.content], Except.ok ())
      else (calls, Except.error (PyErr.runtimeError (unexpectedMsg id r)))
    match r.jsonUrl with
    | none => binary
    | some u =>
      if u = "" then binary
      else
        let a := oracle (Req.asset u)
        let calls2 := calls ++ [Ev.call (Req.asset u)]
        if httpError a.status then
          (calls2, Except.error (PyErr.runtimeError ("HTTP error " ++ toString a.status)))
        else (calls2 ++ [Ev.write dest a.content], Except.ok ())

/-- `download_icon` of the batch-by-query script: same resolve phase; on a
JSON envelope it streams the asset to `{id}.{ext}` with `ext` from the
requested format; on a direct binary payload it derives `ext` from the
response's Content-Type instead. -/
def w_download_icon (oracle : Req → Resp) (_tok : String) (id : Int) (fmt : Fmt)
    (size : Int) (destDir : String) : List Ev × Except PyErr String :=
  let calls := (resolveCalls oracle id fmt size).map Ev.call
  let r := resolveFinal oracle id fmt size
  if r.status ≠ 200 then (calls, Except.error (PyErr.runtimeError (dlErr id r)))
  else
    match r.jsonUrl with
    | none =>
      if ctypeImage r then
        let outPath := destDir ++ "/" ++ toString id ++ "." ++ ctypeExt r
        (calls ++ [Ev.write outPath r.content], Except.ok outPath)
      else (calls, Except.error (PyErr.runtimeError (unexpectedMsg id r)))
    | some u =>
      if u = "" then
        (calls, Except.error (PyErr.runtimeError "Invalid URL"))
      else
        let a := oracle (Req.asset u)
        let calls2 := calls ++ [Ev.call (Req.asset u)]
        if httpError a.status then
          (calls2, Except.error (PyErr.runtimeError ("HTTP error " ++ toString a.status)))
        else
          let outPath := destDir ++ "/" ++ toString id ++ "." ++ fmtExt fmt
          (calls2 ++ [Ev.write outPath a.content], Except.ok outPath)

/-! ## Driver, batch-by-label variant (`scripts/fetch_flaticon.py` `main`) -/

/-- Parsed command-line arguments of the batch-by-label script (the input
file itself is passed to `scriptsMain` as its list of lines). -/
structure SArgs where
  fmt : Fmt
  size : Int
  order : OrderBy
  out : String
  delayMs : Int
deriving DecidableEq

/-- Parsed command-line arguments of the batch-by-query script. -/
structure WArgs where
  query : String
  limit : Int
  fmt : Fmt
  size : Int
  order : OrderBy
  out : String
deriving DecidableEq

def pyStartsHash (s : List Char) : Bool :=
  match s with
  | [] => false
  | c :: _ => c = '#'

/-- Label-file parsing: strip each line, skip blanks and `#` comments. -/
def parseLabels (lines : List String) : List String :=
  (lines.map (fun l => String.mk (pyStrip l.toList))).filter
    (fun s => !s.toList.isEmpty && !pyStartsHash s.toList)

def missLine (label q reason : String) : String :=
  "MISS | label=" ++ label ++ " | query=" ++ q ++ " | reason=" ++ reason

def pyErrMsg : PyErr → String
  | PyErr.typeError => "TypeError"
  | PyErr.attributeError => "AttributeError"
  | PyErr.runtimeError m => m

def errLine (label q : String) (e : PyErr) : String :=
  "ERR  | label=" ++ label ++ " | query=" ++ q ++ " | " ++ pyErrMsg e

def okLine (label q : String) (id : Int) (dest : String) : String :=
  "OK   | label=" ++ label ++ " | query=" ++ q ++ " | id=" ++ toString id ++ " | -> " ++ dest

def sDone (succ fails : Nat) (outDir : String) : String :=
  "Done. " ++ toString succ ++ " succeeded, " ++ toString fails ++ " failed. Output: " ++ outDir

/-- The `try:` block of one iteration of the batch-by-label loop: search
(single-result mode), handle miss / missing id, download.  Returns the
events of the iteration and whether it counted a success. -/
def scriptsItemTry (args : SArgs) (oracle : Req → Resp) (token label q dest : String) :
    List Ev × Bool :=
  let sr := search_first_icon oracle q (orderStr args.order)
  match sr.2 with
  | Except.error e => ([Ev.call sr.1, Ev.err (errLine label q e)], false)
  | Except.ok none => ([Ev.call sr.1, Ev.err (missLine label q "no results")], false)
  | Except.ok (some icon) =>
    match icon.id with
    | none => ([Ev.call sr.1, Ev.err (missLine label q "missing id")], false)
    | some i =>
      if i = 0 then ([Ev.call sr.1, Ev.err (missLine label q "missing id")], false)
      else
        match s_download_icon oracle token i args.fmt args.size dest with
        | (devs, Except.ok _) => (Ev.call sr.1 :: devs ++ [Ev.out (okLine label q i dest)], true)
        | (devs, Except.error e) => (Ev.call sr.1 :: devs ++ [Ev.err (errLine label q e)], false)

/-- The per-label loop of the batch-by-label `main`.  Each iteration first
calls `safe_filename`, which always raises `TypeError` (uncaught), so a
nonempty label list crashes the run; were that fixed, the iteration would
still end in `time.sleep(max(0.0, args.delay-ms / 1000.0))`, whose
`args.delay` attribute lookup raises `AttributeError` outside the
`try/except`. -/
def scriptsLoop (args : SArgs) (oracle : Req → Resp) (token : String) :
    List String → List Ev → Nat → Nat → List Ev × RunEnd
  | [], evs, succ, fails => (evs ++ [Ev.out (sDone succ fails args.out)], RunEnd.finished)
  | label :: _, evs, succ, _fails =>
    let q := normalize_query label
    match s_safe_filename label with
    | Except.error e => (evs, RunEnd.crashed e)
    | Except.ok fb =>
      let ext := fmtExt args.fmt
      let dest := args.out ++ "/" ++ fb ++ "." ++ ext
      let step := scriptsItemTry args oracle token label q dest
      let evs2 := evs ++ step.1
      let _succ2 := if step.2 then succ + 1 else succ
      (evs2, RunEnd.crashed PyErr.attributeError)

/-- `main` of the batch-by-label script: env check (exit 2), make the
output directory, authenticate, parse the label file, loop. -/
def scriptsMain (args : SArgs) (env : Option String) (fileLines : List String)
    (oracle : Req → Resp) : List Ev × RunEnd :=
  if pyFalsyOpt env then ([Ev.err "FLATICON_API_KEY is not set"], RunEnd.exited 2)
  else
    let k := env.getD ""
    let evs := [Ev.mkdirp args.out, Ev.call (Req.auth k)]
    match get_token oracle k with
    | Except.error e => (evs, RunEnd.crashed e)
    | Except.ok tok => scriptsLoop args oracle tok (parseLabels fileLines) evs 0 0

/-! ## Driver, batch-by-query variant (`workflows/fetch_flaticon.py` `main`) -/

def wDone (n : Nat) (outDir : String) : String :=
  "Done. Downloaded " ++ toString n ++ " file(s) to " ++ outDir

/-- The per-item loop of the batch-by-query `main`: a falsy `id` is
skipped with `continue`; each download is tried under `except Exception`;
finally the tally line is printed. -/
def workflowsLoop (args : WArgs) (oracle : Req → Resp) (token : String) :
    List Item → List Ev → Nat → List Ev × RunEnd
  | [], evs, downloaded => (evs ++ [Ev.out (wDone downloaded args.out)], RunEnd.finished)
  | item :: rest, evs, downloaded =>
    match item.id with
    | none => workflowsLoop args oracle token rest evs downloaded
    | some i =>
      if i = 0 then workflowsLoop args oracle token rest evs downloaded
      else
        match w_download_icon oracle token i args.fmt args.size args.out with
        | (devs, Except.ok path) =>
          workflowsLoop args oracle token rest
            (evs ++ devs ++ [Ev.out ("OK " ++ toString i ++ " -> " ++ path)]) (downloaded + 1)
        | (devs, Except.error e) =>
          workflowsLoop args oracle token rest
            (evs ++ devs ++ [Ev.err ("FAIL " ++ toString i ++ " -> " ++ pyErrMsg e)]) downloaded

/-- `main` of the batch-by-query script: env check (exit 2), make the
output directory, authenticate, one multi-page search, then the loop. -/
def workflowsMain (args : WArgs) (env : Option String) (oracle : Req → Resp) :
    List Ev × RunEnd :=
  if pyFalsyOpt env then ([Ev.err "FLATICON_API_KEY is not set"], RunEnd.exited 2)
  else
    let k := env.getD ""
    let evs := [Ev.mkdirp args.out, Ev.call (Req.auth k)]
    match get_token oracle k with
    | Except.error e => (evs, RunEnd.crashed e)
    | Except.ok tok =>
      let sr := search_icons oracle (orderStr args.order) args.query args.limit
      let evs2 := evs ++ sr.1.map
        (fun p => Ev.call (Req.search (orderStr args.order) args.query p.limitParam p.pageNum))
      match sr.2 with
      | Except.error e => (evs2, RunEnd.crashed e)
      | Except.ok results =>
        let evs3 := evs2 ++ [Ev.out ("Found " ++ toString results.length ++
          " results; downloading up to " ++ toString args.limit)]
        workflowsLoop args oracle tok results evs3 0

/-! ## Concrete servers and arguments used by the witnesses -/

def itemN (n : Int) : Item := ⟨some n⟩

/-- A server that answers 404 with nothing in it to every request. -/
def oracleFlat : Req → Resp := fun _ => respBase

def authOk : Resp := { respBase with status := 200, token := some "T1" }

def oracleAuthFail : Req → Resp := fun r =>
  match r with
  | Req.auth _ => { respBase with status := 500, body := "denied" }
  | _ => respBase

/-- Two search pages of total 5: page 1 has two items, page 2 one item. -/
def oracleS : Req → Resp := fun r =>
  match r with
  | Req.auth _ => authOk
  | Req.search _ _ _ 1 =>
    { respBase with status := 200, data := [itemN 1, itemN 2],
                    metaPage := some 1, metaTotal := some 5 }
  | Req.search _ _ _ 2 =>
    { respBase with status := 200, data := [itemN 3],
                    metaPage := some 2, metaTotal := some 5 }
  | _ => respBase

/-- A search page with items but no `total` and no `count` in its
metadata: the termination test compares `page * 1 = 1` against `0`. -/
def oracleMeta : Req → Resp := fun r =>
  match r with
  | Req.auth _ => authOk
  | Req.search _ _ _ 1 =>
    { respBase with status := 200, data := [itemN 1, itemN 2, itemN 3], metaPage := some 1 }
  | _ => respBase

/-- A resolve endpoint that answers a direct PNG binary payload. -/
def oracleBin : Req → Resp := fun r =>
  match r with
  | Req.auth _ => authOk
  | Req.resolveQuery _ _ _ =>
    { respBase with status := 200, ctype := some "image/png", content := "PNGDATA" }
  | _ => respBase

/-- Query-style resolve 404s; the path-style fallback answers 500. -/
def oracle404 : Req → Resp := fun r =>
  match r with
  | Req.auth _ => authOk
  | Req.resolveQuery _ _ _ => { respBase with status := 404 }
  | Req.resolvePath _ _ _ => { respBase with status := 500, body := "boom" }
  | _ => respBase

/-- A resolve endpoint that answers a JSON envelope with an asset URL. -/
def oracleEnv : Req → Resp := fun r =>
  match r with
  | Req.auth _ => authOk
  | Req.resolveQuery _ _ _ =>
    { respBase with status := 200, jsonUrl := some "https://cdn/a.svg" }
  | Req.asset _ => { respBase with status := 200, content := "X" }
  | _ => respBase

def argsA : SArgs := ⟨Fmt.png, 128, OrderBy.priority, "icons", 200⟩

def wargsA : WArgs := ⟨"api", 10, Fmt.svg, 128, OrderBy.priority, "icons"⟩

/-! ## Substring helper lemmas -/

theorem isPre_append (x b : List Char) : isPre x (x ++ b) = true := by
  induction x with
  | nil => rfl
  | cons a as ih => simp [isPre, ih]

theorem isSub_append_left (x a rest : List Char) (h : isSub x rest = true) :
    isSub x (a ++ rest) = true := by
  induction a with
  | nil => simpa using h
  | cons c cs ih => simp [isSub, ih]

theorem isSub_of_pre (x s : List Char) (h : isPre x s = true) : isSub x s = true := by
  cases s with
  | nil => cases x with
    | nil => rfl
    | cons c cs => simp [isPre] at h
  | cons c rest => simp [isSub, h]

theorem isSub_self_append (x a b : List Char) : isSub x (a ++ (x ++ b)) = true :=
  isSub_append_left x a (x ++ b) (isSub_of_pre x (x ++ b) (isPre_append x b))

theorem strToList_append (a b : String) : (a ++ b).toList = a.toList ++ b.toList := by
  simp [String.toList, String.data_append]

/-! ## Claim C6 : normalizer substitution rules -/

/-- Claim C6 is false as stated: the rule `("sa 2", "sa2")` has a value not
containing its key, and the label `"sa 2 sa.2"` contains the key `"sa 2"`
(already lower-case and dash-free), yet `normalize_query` yields
`"sa2 sa 2"`, which still contains the key: the later period-to-space
rewriting recreates `"sa 2"` from the dotted fragment `"sa.2"`. -/
theorem C6_counterexample :
    ("sa 2", "sa2") ∈ fixes ∧
    isSub "sa 2".toList "sa2".toList = false ∧
    isSub "sa 2".toList (pyStrip (pyLower (pyStrip "sa 2 sa.2".toList))) = true ∧
    normalize_query "sa 2 sa.2" = "sa2 sa 2" ∧
    isSub "sa 2".toList (normalize_query "sa 2 sa.2").toList = true := by
  refine ⟨by decide, by decide, by decide, by decide, by decide⟩

/-- Claim C6 (corrected): for each fixed-table rule `(k, v)` whose value
does not contain its key, `normalize_query` maps the key `k` itself to a
query containing `v` and not containing `k`.  (For a general label
containing `k`, the guarantee fails — the period-to-space step can
recreate `k`, and other rules can destroy `v`.) -/
theorem C6_rule_substitution (kv : String × String) (hmem : kv ∈ fixes)
    (hvk : isSub kv.1.toList kv.2.toList = false) :
    isSub kv.2.toList (normalize_query kv.1).toList = true ∧
    isSub kv.1.toList (normalize_query kv.1).toList = false := by
  have h : ∀ p ∈ fixes, isSub p.1.toList p.2.toList = false →
      isSub p.2.toList (normalize_query p.1).toList = true ∧
      isSub p.1.toList (normalize_query p.1).toList = false := by decide
  exact h kv hmem hvk

theorem C6_rule_substitution_witness :
    isSub "electric guitar".toList (normalize_query "e.guitar").toList = true ∧
    isSub "e.guitar".toList (normalize_query "e.guitar").toList = false :=
  C6_rule_substitution ("e.guitar", "electric guitar") (by decide) (by decide)

/-! ## Claim C3 : the one download fallback -/

/-- Is this event one of the two resolve requests? -/
def isResolveEv : Ev → Bool
  | Ev.call (Req.resolveQuery _ _ _) => true
  | Ev.call (Req.resolvePath _ _ _) => true
  | _ => false

theorem filter_resolve_calls (oracle : Req → Resp) (id : Int) (fmt : Fmt) (size : Int) :
    ((resolveCalls oracle id fmt size).map Ev.call).filter isResolveEv =
      (resolveCalls oracle id fmt size).map Ev.call := by
  unfold resolveCalls
  split <;> simp [reqQ, reqP, isResolveEv]

theorem s_download_filter (oracle : Req → Resp) (tok : String) (id : Int) (fmt : Fmt)
    (size : Int) (dest : String) :
    (s_download_icon oracle tok id fmt size dest).1.filter isResolveEv =
      (resolveCalls oracle id fmt size).map Ev.call := by
  unfold s_download_icon
  dsimp only
  repeat' split
  all_goals simp [List.filter_append, filter_resolve_calls, isResolveEv]

theorem w_download_filter (oracle : Req → Resp) (tok : String) (id : Int) (fmt : Fmt)
    (size : Int) (dir : String) :
    (w_download_icon oracle tok id fmt size dir).1.filter isResolveEv =
      (resolveCalls oracle id fmt size).map Ev.call := by
  unfold w_download_icon
  dsimp only
  repeat' split
  all_goals simp [List.filter_append, filter_resolve_calls, isResolveEv]

/-- Claim C3: both `download_icon`s issue the query-parameter-style
resolve request first; exactly on a 404 they retry once with the
path-style request (same size handling: size only for png); a final
non-200 fails with a download error carrying the status and body; no
other resolve request is ever issued. -/
theorem C3_download_fallback (oracle : Req → Resp) (id : Int) (fmt : Fmt) (size : Int)
    (tok dest dir : String) :
    (resolveCalls oracle id fmt size).head? = some (reqQ id fmt size) ∧
    ((oracle (reqQ id fmt size)).status = 404 →
      resolveCalls oracle id fmt size = [reqQ id fmt size, reqP id fmt size] ∧
      resolveFinal oracle id fmt size = oracle (reqP id fmt size)) ∧
    ((oracle (reqQ id fmt size)).status ≠ 404 →
      resolveCalls oracle id fmt size = [reqQ id fmt size] ∧
      resolveFinal oracle id fmt size = oracle (reqQ id fmt size)) ∧
    (fmt = Fmt.svg → sizeParam fmt size = none) ∧
    ((s_download_icon oracle tok id fmt size dest).1.filter isResolveEv =
      (resolveCalls oracle id fmt size).map Ev.call) ∧
    ((w_download_icon oracle tok id fmt size dir).1.filter isResolveEv =
      (resolveCalls oracle id fmt size).map Ev.call) ∧
    ((resolveFinal oracle id fmt size).status ≠ 200 →
      s_download_icon oracle tok id fmt size dest =
        ((resolveCalls oracle id fmt size).map Ev.call,
          Except.error (PyErr.runtimeError (dlErr id (resolveFinal oracle id fmt size)))) ∧
      w_download_icon oracle tok id fmt size dir =
        ((resolveCalls oracle id fmt size).map Ev.call,
          Except.error (PyErr.runtimeError (dlErr id (resolveFinal oracle id fmt size))))) ∧
    isSub (toString (resolveFinal oracle id fmt size).status).toList
      (dlErr id (resolveFinal oracle id fmt size)).toList = true ∧
    isSub (resolveFinal oracle id fmt size).body.toList
      (dlErr id (resolveFinal oracle id fmt size)).toList = true := by
  refine ⟨?_, ?_, ?_, ?_, s_download_filter oracle tok id fmt size dest,
    w_download_filter oracle tok id fmt size dir, ?_, ?_, ?_⟩
  · unfold resolveCalls; split <;> rfl
  · intro h; unfold resolveCalls resolveFinal; rw [if_pos h, if_pos h]; exact ⟨rfl, rfl⟩
  · intro h; unfold resolveCalls resolveFinal; rw [if_neg h, if_neg h]; exact ⟨rfl, rfl⟩
  · intro h; subst h; rfl
  · intro h
    constructor
    · unfold s_download_icon; rw [if_pos h]
    · unfold w_download_icon; rw [if_pos h]
  · have : (dlErr id (resolveFinal oracle id fmt size)).toList =
        ("Download error for " ++ toString id ++ ": ").toList ++
          ((toString (resolveFinal oracle id fmt size).status).toList ++
            (" " ++ (resolveFinal oracle id fmt size).body).toList) := by
      simp [dlErr, strToList_append, List.append_assoc]
    rw [this]
    exact isSub_self_append _ _ _
  · have : (dlErr id (resolveFinal oracle id fmt size)).toList =
        ("Download error for " ++ toString id ++ ": " ++
          toString (resolveFinal oracle id fmt size).status ++ " ").toList ++
          ((resolveFinal oracle id fmt size).body.toList ++ []) := by
      simp [dlErr, strToList_append, List.append_assoc]
    rw [this]
    exact isSub_self_append _ _ _

theorem C3_download_fallback_witness :
    resolveCalls oracle404 7 Fmt.png 128 = [reqQ 7 Fmt.png 128, reqP 7 Fmt.png 128] ∧
    s_download_icon oracle404 "T1" 7 Fmt.png 128 "icons/x.png" =
      ((resolveCalls oracle404 7 Fmt.png 128).map Ev.call,
        Except.error (PyErr.runtimeError (dlErr 7 (resolveFinal oracle404 7 Fmt.png 128)))) := by
  have h := C3_download_fallback oracle404 7 Fmt.png 128 "T1" "icons/x.png" "icons"
  obtain ⟨-, h404, -, -, -, -, herr, -, -⟩ := h
  exact ⟨(h404 (by decide)).1, (herr (by decide)).1⟩

/-! ## Claim C9 : extensions of written files -/

theorem no_write_in_calls (p c : String) (l : List Req) :
    Ev.write p c ∉ l.map Ev.call := by
  simp

/-- Claim C9 is false as stated: with requested format `svg`, a direct
binary response whose Content-Type is `image/png` makes the batch-by-query
`download_icon` write `7.png` — extension `png`, not the requested
`svg`. -/
theorem C9_counterexample :
    w_download_icon oracleBin "T1" 7 Fmt.svg 128 "icons" =
      ([Ev.call (Req.resolveQuery 7 "svg" none), Ev.write "icons/7.png" "PNGDATA"],
        Except.ok "icons/7.png") ∧
    fmtExt Fmt.svg = "svg" ∧
    isSub ".png".toList "icons/7.png".toList = true ∧
    isSub ".svg".toList "icons/7.png".toList = false := by
  refine ⟨by decide, by decide, by decide, by decide⟩

/-- Claim C9 (corrected): in the batch-by-query script, a file written via
the JSON-envelope path is named `{id}.{ext}` with `ext` equal to the
requested format, but a file written via the direct-binary path takes its
extension from the response's Content-Type (`svg` exactly when the header
contains `"svg"`, else `png`), which can differ from the requested format.
The batch-by-label script's `download_icon` writes only to the destination
path chosen by its caller, and its driver in fact never writes any file
(it crashes each iteration before downloading). -/
theorem C9_extension_policy (oracle : Req → Resp) (tok : String) (id : Int) (fmt : Fmt)
    (size : Int) (dir dest : String) (sargs : SArgs) (env : Option String)
    (lines : List String) :
    (∀ u, (resolveFinal oracle id fmt size).jsonUrl = some u → u ≠ "" →
      ∀ p c, Ev.write p c ∈ (w_download_icon oracle tok id fmt size dir).1 →
        p = dir ++ "/" ++ toString id ++ "." ++ fmtExt fmt) ∧
    ((resolveFinal oracle id fmt size).jsonUrl = none →
      ∀ p c, Ev.write p c ∈ (w_download_icon oracle tok id fmt size dir).1 →
        p = dir ++ "/" ++ toString id ++ "." ++ ctypeExt (resolveFinal oracle id fmt size)) ∧
    (∀ p c, Ev.write p c ∈ (s_download_icon oracle tok id fmt size dest).1 → p = dest) ∧
    (∀ p c, Ev.write p c ∉ (scriptsMain sargs env lines oracle).1) := by
  refine ⟨?_, ?_, ?_, ?_⟩
  · intro u hu hne p c hmem
    unfold w_download_icon at hmem
    dsimp only at hmem
    rw [hu] at hmem
    dsimp only at hmem
    rw [if_neg hne] at hmem
    repeat' split at hmem
    all_goals simp at hmem
    all_goals exact hmem.1
  · intro hu p c hmem
    unfold w_download_icon at hmem
    dsimp only at hmem
    rw [hu] at hmem
    dsimp only at hmem
    repeat' split at hmem
    all_goals simp at hmem
    all_goals exact hmem.1
  · intro p c hmem
    unfold s_download_icon at hmem
    dsimp only at hmem
    repeat' split at hmem
    all_goals simp at hmem
    all_goals exact hmem.1
  · intro p c hmem
    unfold scriptsMain at hmem
    split at hmem
    · simp at hmem
    · dsimp only at hmem
      split at hmem
      · simp at hmem
      · rcases hlab : parseLabels lines with _ | ⟨label, rest⟩ <;> rw [hlab] at hmem <;>
          simp [scriptsLoop, s_safe_filename] at hmem

theorem C9_extension_policy_witness :
    ("icons" ++ "/" ++ toString (7 : Int) ++ "." ++ fmtExt Fmt.svg) = "icons/7.svg" := by
  have h := C9_extension_policy oracleEnv "T1" 7 Fmt.svg 128 "icons" "d" argsA (some "K") []
  have h2 := h.1 "https://cdn/a.svg" (by decide) (by decide) "icons/7.svg" "X" (by decide)
  exact h2.symm

/-! ## Claim C7 : handling of a search record without an id -/

/-- Claim C7 is false as stated: in the batch-by-query driver a record
whose `id` is absent is skipped by `continue` — nothing is logged, no
failure is counted (the final line reports 0 downloads and there is no
failure tally at all), unlike the claimed log-and-count behaviour. -/
theorem C7_counterexample :
    workflowsLoop wargsA oracleBin "T1" [⟨none⟩] [] 0 =
      ([Ev.out (wDone 0 "icons")], RunEnd.finished) ∧
    (∀ line, Ev.err line ∉ (workflowsLoop wargsA oracleBin "T1" [⟨none⟩] [] 0).1) ∧
    (∀ line, Ev.out line ∈ (workflowsLoop wargsA oracleBin "T1" [⟨none⟩] [] 0).1 →
      line = wDone 0 "icons") := by
  have heq : (workflowsLoop wargsA oracleBin "T1" [⟨none⟩] [] 0).1 =
      [Ev.out (wDone 0 "icons")] := by decide
  refine ⟨by decide, ?_, ?_⟩
  · intro line hmem
    rw [heq] at hmem
    simp at hmem
  · intro line hmem
    rw [heq] at hmem
    simpa using hmem

/-- Claim C7 (corrected): the batch-by-query driver silently skips a
record with a falsy `id` — same events, same download count, processing
simply continues with the remaining items; the batch-by-label driver's
missing-id branch (which does log and count) is unreachable, because every
iteration of its loop crashes in `safe_filename` first. -/
theorem C7_missing_id_handling (args : WArgs) (oracle : Req → Resp) (token : String)
    (item : Item) (rest : List Item) (evs : List Ev) (d : Nat)
    (sargs : SArgs) (soracle : Req → Resp) (stoken label : String)
    (srest : List String) (sevs : List Ev) (succ fails : Nat) :
    (pyFalsyId item = true →
      workflowsLoop args oracle token (item :: rest) evs d =
        workflowsLoop args oracle token rest evs d) ∧
    (scriptsLoop sargs soracle stoken (label :: srest) sevs succ fails).2 =
      RunEnd.crashed PyErr.typeError := by
  constructor
  · intro h
    unfold pyFalsyId at h
    rcases hid : item.id with _ | i
    · simp [workflowsLoop, hid]
    · rw [hid] at h
      simp at h
      simp [workflowsLoop, hid, h]
  · simp [scriptsLoop, s_safe_filename]

theorem C7_missing_id_handling_witness :
    workflowsLoop wargsA oracleBin "T1" [⟨none⟩, itemN 7] [] 0 =
      workflowsLoop wargsA oracleBin "T1" [itemN 7] [] 0 :=
  (C7_missing_id_handling wargsA oracleBin "T1" ⟨none⟩ [itemN 7] [] 0
    argsA oracleBin "T1" "guitar" [] [] 0 0).1 (by decide)

/-! ## Claim C8 : the missing-secret exit status -/

theorem get_token_error_of_authFails (oracle : Req → Resp) (k : String)
    (h : authFails (oracle (Req.auth k)) = true) :
    ∃ e, get_token oracle k = Except.error e := by
  unfold authFails at h
  unfold get_token
  dsimp only
  simp only [Bool.or_eq_true, decide_eq_true_eq] at h
  rcases h with (h | h) | h
  · rw [if_pos h]
    exact ⟨_, rfl⟩
  · split
    · exact ⟨_, rfl⟩
    · rw [h]
      exact ⟨_, rfl⟩
  · split
    · exact ⟨_, rfl⟩
    · rw [h]
      simp

/-- Claim C8: with the API-key environment variable unset or empty, both
drivers exit with status 2 having made no network call; any
authentication failure instead ends as an uncaught exception, i.e. the
generic interpreter exit 1 ≠ 2. -/
theorem C8_missing_key_exit (sargs : SArgs) (wargs : WArgs) (env : Option String)
    (lines : List String) (oracle : Req → Resp) :
    (pyFalsyOpt env = true →
      scriptsMain sargs env lines oracle =
        ([Ev.err "FLATICON_API_KEY is not set"], RunEnd.exited 2) ∧
      workflowsMain wargs env oracle =
        ([Ev.err "FLATICON_API_KEY is not set"], RunEnd.exited 2) ∧
      (∀ r, Ev.call r ∉ (scriptsMain sargs env lines oracle).1) ∧
      (∀ r, Ev.call r ∉ (workflowsMain wargs env oracle).1)) ∧
    (∀ k, env = some k → k ≠ "" → authFails (oracle (Req.auth k)) = true →
      exitCode (scriptsMain sargs env lines oracle).2 = 1 ∧
      exitCode (workflowsMain wargs env oracle).2 = 1 ∧
      (2 : Nat) ≠ 1) := by
  constructor
  · intro h
    have hs : scriptsMain sargs env lines oracle =
        ([Ev.err "FLATICON_API_KEY is not set"], RunEnd.exited 2) := by
      unfold scriptsMain
      rw [if_pos h]
    have hw : workflowsMain wargs env oracle =
        ([Ev.err "FLATICON_API_KEY is not set"], RunEnd.exited 2) := by
      unfold workflowsMain
      rw [if_pos h]
    refine ⟨hs, hw, ?_, ?_⟩
    · intro r hmem
      rw [hs] at hmem
      simp at hmem
    · intro r hmem
      rw [hw] at hmem
      simp at hmem
  · intro k hk hne hfail
    subst hk
    have hfalse : pyFalsyOpt (some k) = false := by
      simp [pyFalsyOpt, hne]
    obtain ⟨e, he⟩ := get_token_error_of_authFails oracle k hfail
    refine ⟨?_, ?_, by decide⟩
    · unfold scriptsMain
      rw [if_neg (by simp [hfalse])]
      dsimp only
      rw [show (some k).getD "" = k from rfl, he]
      rfl
    · unfold workflowsMain
      rw [if_neg (by simp [hfalse])]
      dsimp only
      rw [show (some k).getD "" = k from rfl, he]
      rfl

theorem C8_missing_key_exit_witness :
    scriptsMain argsA none ["guitar"] oracleAuthFail =
      ([Ev.err "FLATICON_API_KEY is not set"], RunEnd.exited 2) ∧
    exitCode (scriptsMain argsA (some "K") ["guitar"] oracleAuthFail).2 = 1 := by
  refine ⟨((C8_missing_key_exit argsA wargsA none ["guitar"] oracleAuthFail).1 (by decide)).1, ?_⟩
  exact ((C8_missing_key_exit argsA wargsA (some "K") ["guitar"] oracleAuthFail).2 "K" rfl
    (by decide) (by decide)).1

/-! ## Claim C10 : directory creation precedes authentication -/

/-- Claim C10: in both drivers the output directory is created (with
parents, `mkdir(parents=True, exist_ok=True)`) before the authentication
request; a run that aborts on a fatal authentication error therefore has
the trace `[mkdirp out, auth call]` — the directory was created, no file
was written. -/
theorem C10_mkdir_before_auth (sargs : SArgs) (wargs : WArgs) (k : String)
    (lines : List String) (oracle : Req → Resp)
    (hk : k ≠ "") (hfail : authFails (oracle (Req.auth k)) = true) :
    (scriptsMain sargs (some k) lines oracle).1 =
      [Ev.mkdirp sargs.out, Ev.call (Req.auth k)] ∧
    isCrashed (scriptsMain sargs (some k) lines oracle).2 = true ∧
    (∀ p c, Ev.write p c ∉ (scriptsMain sargs (some k) lines oracle).1) ∧
    (workflowsMain wargs (some k) oracle).1 =
      [Ev.mkdirp wargs.out, Ev.call (Req.auth k)] ∧
    isCrashed (workflowsMain wargs (some k) oracle).2 = true ∧
    (∀ p c, Ev.write p c ∉ (workflowsMain wargs (some k) oracle).1) := by
  have hfalse : pyFalsyOpt (some k) = false := by simp [pyFalsyOpt, hk]
  obtain ⟨e, he⟩ := get_token_error_of_authFails oracle k hfail
  have hs : scriptsMain sargs (some k) lines oracle =
      ([Ev.mkdirp sargs.out, Ev.call (Req.auth k)], RunEnd.crashed e) := by
    unfold scriptsMain
    rw [if_neg (by simp [hfalse])]
    dsimp only
    rw [show (some k).getD "" = k from rfl, he]
  have hw : workflowsMain wargs (some k) oracle =
      ([Ev.mkdirp wargs.out, Ev.call (Req.auth k)], RunEnd.crashed e) := by
    unfold workflowsMain
    rw [if_neg (by simp [hfalse])]
    dsimp only
    rw [show (some k).getD "" = k from rfl, he]
  rw [hs, hw]
  refine ⟨rfl, rfl, ?_, rfl, rfl, ?_⟩ <;> intro p c hmem <;> simp at hmem

theorem C10_mkdir_before_auth_witness :
    (scriptsMain argsA (some "K") ["guitar"] oracleAuthFail).1 =
      [Ev.mkdirp "icons", Ev.call (Req.auth "K")] :=
  (C10_mkdir_before_auth argsA wargsA "K" ["guitar"] oracleAuthFail
    (by decide) (by decide)).1

/-! ## Claim C1 : per-item failure isolation and run completion -/

theorem reqQ_mem_w_download (oracle : Req → Resp) (tok : String) (id : Int) (fmt : Fmt)
    (size : Int) (dir : String) :
    Ev.call (reqQ id fmt size) ∈ (w_download_icon oracle tok id fmt size dir).1 := by
  have hc : Ev.call (reqQ id fmt size) ∈ (resolveCalls oracle id fmt size).map Ev.call := by
    unfold resolveCalls
    split <;> simp
  unfold w_download_icon
  dsimp only
  repeat' split
  all_goals first
    | exact hc
    | exact List.mem_append_left _ hc
    | exact List.mem_append_left _ (List.mem_append_left _ hc)

theorem mem_workflowsLoop (args : WArgs) (oracle : Req → Resp) (token : String)
    (results : List Item) :
    ∀ (evs : List Ev) (d : Nat) (x : Ev),
      x ∈ evs → x ∈ (workflowsLoop args oracle token results evs d).1 := by
  induction results with
  | nil =>
    intro evs d x hx
    simp only [workflowsLoop]
    exact List.mem_append_left _ hx
  | cons item rest ih =>
    intro evs d x hx
    rcases hid : item.id with _ | i
    · rw [show workflowsLoop args oracle token (item :: rest) evs d =
        workflowsLoop args oracle token rest evs d from by simp [workflowsLoop, hid]]
      exact ih evs d x hx
    · by_cases hz : i = 0
      · rw [show workflowsLoop args oracle token (item :: rest) evs d =
          workflowsLoop args oracle token rest evs d from by simp [workflowsLoop, hid, hz]]
        exact ih evs d x hx
      · rcases hdl : w_download_icon oracle token i args.fmt args.size args.out with ⟨devs, res⟩
        rcases res with e | path
        · rw [show workflowsLoop args oracle token (item :: rest) evs d =
            workflowsLoop args oracle token rest
              (evs ++ devs ++ [Ev.err ("FAIL " ++ toString i ++ " -> " ++ pyErrMsg e)]) d from by
            simp only [workflowsLoop, hid]
            rw [if_neg hz, hdl]]
          exact ih _ d x (List.mem_append_left _ (List.mem_append_left _ hx))
        · rw [show workflowsLoop args oracle token (item :: rest) evs d =
            workflowsLoop args oracle token rest
              (evs ++ devs ++ [Ev.out ("OK " ++ toString i ++ " -> " ++ path)]) (d + 1) from by
            simp only [workflowsLoop, hid]
            rw [if_neg hz, hdl]]
          exact ih _ (d + 1) x (List.mem_append_left _ (List.mem_append_left _ hx))

theorem workflowsLoop_spec (args : WArgs) (oracle : Req → Resp) (token : String)
    (results : List Item) :
    ∀ (evs : List Ev) (d : Nat),
      (workflowsLoop args oracle token results evs d).2 = RunEnd.finished ∧
      (∃ n, (workflowsLoop args oracle token results evs d).1.getLast? =
        some (Ev.out (wDone n args.out))) ∧
      (∀ it ∈ results, ∀ i, it.id = some i → i ≠ 0 →
        Ev.call (reqQ i args.fmt args.size) ∈
          (workflowsLoop args oracle token results evs d).1) := by
  induction results with
  | nil =>
    intro evs d
    refine ⟨by simp [workflowsLoop], ⟨d, by simp [workflowsLoop]⟩, ?_⟩
    intro it hit
    simp at hit
  | cons item rest ih =>
    intro evs d
    rcases hid : item.id with _ | i
    · rw [show workflowsLoop args oracle token (item :: rest) evs d =
        workflowsLoop args oracle token rest evs d from by simp [workflowsLoop, hid]]
      obtain ⟨h1, h2, h3⟩ := ih evs d
      refine ⟨h1, h2, ?_⟩
      intro it hit j hj hjz
      rcases List.mem_cons.mp hit with h | h
      · subst h
        rw [hid] at hj
        cases hj
      · exact h3 it h j hj hjz
    · by_cases hz : i = 0
      · rw [show workflowsLoop args oracle token (item :: rest) evs d =
          workflowsLoop args oracle token rest evs d from by simp [workflowsLoop, hid, hz]]
        obtain ⟨h1, h2, h3⟩ := ih evs d
        refine ⟨h1, h2, ?_⟩
        intro it hit j hj hjz
        rcases List.mem_cons.mp hit with h | h
        · subst h
          rw [hid] at hj
          cases hj
          exact absurd hz hjz
        · exact h3 it h j hj hjz
      · rcases hdl : w_download_icon oracle token i args.fmt args.size args.out with ⟨devs, res⟩
        have hdevs : Ev.call (reqQ i args.fmt args.size) ∈ devs := by
          have := reqQ_mem_w_download oracle token i args.fmt args.size args.out
          rw [hdl] at this
          exact this
        rcases res with e | path
        · rw [show workflowsLoop args oracle token (item :: rest) evs d =
            workflowsLoop args oracle token rest
              (evs ++ devs ++ [Ev.err ("FAIL " ++ toString i ++ " -> " ++ pyErrMsg e)]) d from by
            simp only [workflowsLoop, hid]
            rw [if_neg hz, hdl]]
          obtain ⟨h1, h2, h3⟩ := ih _ d
          refine ⟨h1, h2, ?_⟩
          intro it hit j hj hjz
          rcases List.mem_cons.mp hit with h | h
          · subst h
            rw [hid] at hj
            cases hj
            exact mem_workflowsLoop args oracle token rest _ d _
              (List.mem_append_left _ (List.mem_append_right _ hdevs))
          · exact h3 it h j hj hjz
        · rw [show workflowsLoop args oracle token (item :: rest) evs d =
            workflowsLoop args oracle token rest
              (evs ++ devs ++ [Ev.out ("OK " ++ toString i ++ " -> " ++ path)]) (d + 1) from by
            simp only [workflowsLoop, hid]
            rw [if_neg hz, hdl]]
          obtain ⟨h1, h2, h3⟩ := ih _ (d + 1)
          refine ⟨h1, h2, ?_⟩
          intro it hit j hj hjz
          rcases List.mem_cons.mp hit with h | h
          · subst h
            rw [hid] at hj
            cases hj
            exact mem_workflowsLoop args oracle token rest _ (d + 1) _
              (List.mem_append_left _ (List.mem_append_right _ hdevs))
          · exact h3 it h j hj hjz

/-- Claim C1 is a correct description of the batch-by-query driver, whose
loop finishes and prints the tally for every item list and every download
outcome, attempting every item with a truthy id.  It is false of the
batch-by-label driver: its very first iteration raises an uncaught
`TypeError` inside `safe_filename` (`re.sub` is called without its string
argument) — and its `time.sleep(max(0.0, args.delay-ms / 1000.0))` line
would raise `AttributeError` outside the `try` — so with any nonempty
label list the run aborts without attempting the remaining items or
printing the tally. -/
theorem C1_per_item_isolation :
    scriptsMain argsA (some "K") ["guitar"] oracleS =
      ([Ev.mkdirp "icons", Ev.call (Req.auth "K")], RunEnd.crashed PyErr.typeError) ∧
    (∀ (args : WArgs) (oracle : Req → Resp) (token : String) (results : List Item)
        (evs : List Ev) (d : Nat),
      (workflowsLoop args oracle token results evs d).2 = RunEnd.finished ∧
      (∃ n, (workflowsLoop args oracle token results evs d).1.getLast? =
        some (Ev.out (wDone n args.out))) ∧
      (∀ it ∈ results, ∀ i, it.id = some i → i ≠ 0 →
        Ev.call (reqQ i args.fmt args.size) ∈
          (workflowsLoop args oracle token results evs d).1)) :=
  ⟨by decide, fun args oracle token results evs d =>
    workflowsLoop_spec args oracle token results evs d⟩

theorem C1_per_item_isolation_witness :
    Ev.call (reqQ 7 Fmt.svg 128) ∈ (workflowsLoop wargsA oracleBin "T1" [itemN 7] [] 0).1 :=
  (C1_per_item_isolation.2 wargsA oracleBin "T1" [itemN 7] [] 0).2.2 (itemN 7)
    (by simp [itemN]) 7 rfl (by decide)

/-! ## Claim C2 : the filename sanitizers -/

theorem mem_collapseRuns (p : Char → Bool) (rep : Char) :
    ∀ (l : List Char), ∀ c ∈ collapseRuns p rep l, c = rep ∨ (c ∈ l ∧ p c = false)
  | [] => by simp [collapseRuns]
  | [a] => by
    intro c hc
    by_cases h : p a
    · simp [collapseRuns, h] at hc
      exact Or.inl hc
    · simp [collapseRuns, h] at hc
      refine Or.inr ⟨by simp [hc], ?_⟩
      rw [hc]
      simpa using h
  | a :: b :: rest => by
    intro c hc
    by_cases h : p a
    · by_cases hb : p b
      · rw [show collapseRuns p rep (a :: b :: rest) = collapseRuns p rep (b :: rest) from by
          simp [collapseRuns, h, hb]] at hc
        rcases mem_collapseRuns p rep (b :: rest) c hc with h1 | ⟨h1, h2⟩
        · exact Or.inl h1
        · exact Or.inr ⟨List.mem_cons_of_mem _ h1, h2⟩
      · rw [show collapseRuns p rep (a :: b :: rest) = rep :: collapseRuns p rep (b :: rest) from by
          simp [collapseRuns, h, hb]] at hc
        rcases List.mem_cons.mp hc with h1 | h1
        · exact Or.inl h1
        · rcases mem_collapseRuns p rep (b :: rest) c h1 with h2 | ⟨h2, h3⟩
          · exact Or.inl h2
          · exact Or.inr ⟨List.mem_cons_of_mem _ h2, h3⟩
    · rw [show collapseRuns p rep (a :: b :: rest) = a :: collapseRuns p rep (b :: rest) from by
        simp [collapseRuns, h]] at hc
      rcases List.mem_cons.mp hc with h1 | h1
      · subst h1
        exact Or.inr ⟨List.mem_cons_self _ _, by simpa using h⟩
      · rcases mem_collapseRuns p rep (b :: rest) c h1 with h2 | ⟨h2, h3⟩
        · exact Or.inl h2
        · exact Or.inr ⟨List.mem_cons_of_mem _ h2, h3⟩

theorem collapseRuns_all (p : Char → Bool) (rep : Char) :
    ∀ (l : List Char), (∀ c ∈ l, p c = true) → l ≠ [] → collapseRuns p rep l = [rep]
  | [] => by intro _ h; cases h rfl
  | [a] => by
    intro hall _
    simp [collapseRuns, hall a (by simp)]
  | a :: b :: rest => by
    intro hall _
    have ha : p a = true := hall a (by simp)
    have hb : p b = true := hall b (by simp)
    rw [show collapseRuns p rep (a :: b :: rest) = collapseRuns p rep (b :: rest) from by
      simp [collapseRuns, ha, hb]]
    exact collapseRuns_all p rep (b :: rest)
      (fun c hc => hall c (List.mem_cons_of_mem _ hc)) (by simp)

theorem head_dropWhile (q : Char → Bool) :
    ∀ (l : List Char) (c : Char), (l.dropWhile q).head? = some c → q c = false
  | [], c => by simp
  | a :: rest, c => by
    intro hc
    rw [List.dropWhile_cons] at hc
    by_cases h : q a
    · rw [if_pos h] at hc
      exact head_dropWhile q rest c hc
    · rw [if_neg h] at hc
      simp at hc
      rw [hc] at h
      simpa using h

theorem head_of_pre {l1 l2 : List Char} (h : l1 <+: l2) (c : Char)
    (hc : l1.head? = some c) : l2.head? = some c := by
  obtain ⟨t, rfl⟩ := h
  cases l1 with
  | nil => simp at hc
  | cons a as => simpa using hc

/-- Chars of the strip-both-ends combinator are chars of the input. -/
theorem strip2_sub (q : Char → Bool) (l : List Char) :
    ∀ c ∈ ((l.dropWhile q).reverse.dropWhile q).reverse, c ∈ l := by
  intro c hc
  rw [List.mem_reverse] at hc
  have h1 : c ∈ (l.dropWhile q).reverse := ((List.dropWhile_suffix q).sublist.subset) hc
  rw [List.mem_reverse] at h1
  exact ((List.dropWhile_suffix q).sublist.subset) h1

theorem strip2_head (q : Char → Bool) (l : List Char) (c : Char)
    (hc : (((l.dropWhile q).reverse.dropWhile q).reverse).head? = some c) : q c = false := by
  have hpre : ((l.dropWhile q).reverse.dropWhile q).reverse <+: l.dropWhile q := by
    have h1 : (l.dropWhile q).reverse.dropWhile q <:+ (l.dropWhile q).reverse :=
      List.dropWhile_suffix q
    have h2 := List.reverse_prefix.mpr h1
    rwa [List.reverse_reverse] at h2
  exact head_dropWhile q l c (head_of_pre hpre c hc)

theorem strip2_getLast (q : Char → Bool) (l : List Char) (c : Char)
    (hc : (((l.dropWhile q).reverse.dropWhile q).reverse).getLast? = some c) : q c = false := by
  rw [List.getLast?_reverse] at hc
  exact head_dropWhile q (l.dropWhile q).reverse c hc

/-- The three sanitizing passes of the batch-by-query `safe_filename`,
after lower-casing and stripping. -/
def sanitizePipeline (l0 : List Char) : List Char :=
  stripChar '-' (collapseRuns (fun c => c = '-') '-'
    (collapseRuns (fun c => !validChar c) '-' l0))

theorem w_safe_filename_eq (s : String) :
    w_safe_filename s =
      (if sanitizePipeline (pyLower (pyStrip s.toList)) = [] then "icon"
       else String.mk (sanitizePipeline (pyLower (pyStrip s.toList)))) := rfl

theorem sp_valid (l0 : List Char) : ∀ c ∈ sanitizePipeline l0, validChar c = true := by
  intro c hc
  have h3 : c ∈ collapseRuns (fun c => c = '-') '-'
      (collapseRuns (fun c => !validChar c) '-' l0) :=
    strip2_sub _ _ c hc
  rcases mem_collapseRuns _ _ _ c h3 with h | ⟨h, -⟩
  · rw [h]; decide
  · rcases mem_collapseRuns _ _ _ c h with h2 | ⟨-, h2⟩
    · rw [h2]; decide
    · simpa using h2

theorem sp_head (l0 : List Char) : (sanitizePipeline l0).head? ≠ some '-' := by
  intro h
  have := strip2_head (fun c => c = '-') _ '-' h
  simp at this

theorem sp_getLast (l0 : List Char) : (sanitizePipeline l0).getLast? ≠ some '-' := by
  intro h
  have := strip2_getLast (fun c => c = '-') _ '-' h
  simp at this

theorem sp_all_invalid (l0 : List Char) (h : ∀ c ∈ l0, validChar c = false) :
    sanitizePipeline l0 = [] := by
  rcases hl : l0 with _ | ⟨a, rest⟩
  · rfl
  · rw [← hl]
    have h2 : collapseRuns (fun c => !validChar c) '-' l0 = ['-'] := by
      refine collapseRuns_all _ _ l0 (fun c hc => by simp [h c hc]) (by rw [hl]; simp)
    unfold sanitizePipeline
    rw [h2]
    decide

/-- Claim C2, settled against the code: the batch-by-label
`safe_filename` never returns at all (its `re.sub` call is missing the
string argument and raises `TypeError`), while the batch-by-query
`safe_filename` does satisfy the claimed contract: a non-empty string of
characters in `[a-z0-9._-]` with no leading or trailing hyphen, and the
literal `"icon"` whenever no character of the input is valid even after
lower-casing. -/
theorem C2_safe_filename (s : String) :
    s_safe_filename "guitar" = Except.error PyErr.typeError ∧
    (w_safe_filename s ≠ "" ∧
      (∀ c ∈ (w_safe_filename s).toList, validChar c = true) ∧
      (w_safe_filename s).toList.head? ≠ some '-' ∧
      (w_safe_filename s).toList.getLast? ≠ some '-') ∧
    ((∀ c ∈ s.toList, validChar (lowerChar c) = false) → w_safe_filename s = "icon") := by
  refine ⟨rfl, ?_, ?_⟩
  · rw [w_safe_filename_eq]
    by_cases hnil : sanitizePipeline (pyLower (pyStrip s.toList)) = []
    · rw [if_pos hnil]
      refine ⟨by decide, by decide, by decide, by decide⟩
    · rw [if_neg hnil]
      have htl : (String.mk (sanitizePipeline (pyLower (pyStrip s.toList)))).toList =
          sanitizePipeline (pyLower (pyStrip s.toList)) := rfl
      refine ⟨?_, ?_, ?_, ?_⟩
      · intro h
        exact hnil (congrArg String.toList h)
      · rw [htl]
        exact sp_valid _
      · rw [htl]
        exact sp_head _
      · rw [htl]
        exact sp_getLast _
  · intro hall
    rw [w_safe_filename_eq]
    rw [if_pos]
    apply sp_all_invalid
    intro c hc
    rcases List.mem_map.mp hc with ⟨c0, hc0, rfl⟩
    exact hall c0 (strip2_sub pyWs s.toList c0 hc0)

theorem C2_safe_filename_witness : w_safe_filename "&&&" = "icon" :=
  (C2_safe_filename "&&&").2.2 (by decide)

/-! ## Claims C4 and C5 : search pagination -/

/-- Number of items accumulated from a list of search-trace pages. -/
def pagesAcc (tr : List SearchPage) : Int :=
  (tr.map (fun e => (e.resp.data.length : Int))).sum

theorem pagesAcc_nil : pagesAcc [] = 0 := rfl

theorem pagesAcc_cons (e : SearchPage) (tr : List SearchPage) :
    pagesAcc (e :: tr) = (e.resp.data.length : Int) + pagesAcc tr := by
  simp [pagesAcc]

/-- The search loop invariants: consecutive page numbers starting at
`page`; each request's `limit` parameter is `min 100 (limit - accumulated
so far)`; an empty trace means the loop was never entered; with enough
fuel, a normal return stops only because the limit was reached, a page
was empty, or the metadata condition held; and a non-empty page whose
metadata condition holds is always the last page of the trace. -/
theorem searchLoop_spec (oracle : Req → Resp) (ob q : String) (limit : Int) :
    ∀ (fuel : Nat) (out : List Item) (page : Nat),
    ((searchLoop oracle ob q limit fuel out page).1.map (fun e => e.pageNum) =
      List.range' page (searchLoop oracle ob q limit fuel out page).1.length) ∧
    (∀ i, (hi : i < (searchLoop oracle ob q limit fuel out page).1.length) →
      ((searchLoop oracle ob q limit fuel out page).1[i].limitParam =
        min 100 (limit - ((out.length : Int) +
          pagesAcc ((searchLoop oracle ob q limit fuel out page).1.take i))))) ∧
    ((searchLoop oracle ob q limit fuel out page).1 = [] →
      ¬ ((out.length : Int) < limit)) ∧
    ((limit - (out.length : Int)).toNat ≤ fuel →
      ∀ r last, (searchLoop oracle ob q limit fuel out page).2 = Except.ok r →
        (searchLoop oracle ob q limit fuel out page).1.getLast? = some last →
        limit ≤ (out.length : Int) + pagesAcc (searchLoop oracle ob q limit fuel out page).1 ∨
        last.resp.data = [] ∨ metaCond last.resp = true) ∧
    (∀ i, (hi : i < (searchLoop oracle ob q limit fuel out page).1.length) →
      (searchLoop oracle ob q limit fuel out page).1[i].resp.data ≠ [] →
      metaCond (searchLoop oracle ob q limit fuel out page).1[i].resp = true →
      i + 1 = (searchLoop oracle ob q limit fuel out page).1.length) := by
  intro fuel
  induction fuel with
  | zero =>
    intro out page
    rw [searchLoop]
    by_cases h1 : ((out.length : Int)) < limit
    · rw [if_pos h1]
      dsimp only
      by_cases h2 : (oracle (Req.search ob q (min 100 (limit - (out.length : Int))) page)).status ≠ 200
      · rw [if_pos h2]
        refine ⟨by simp [List.range'], ?_, by simp, ?_, ?_⟩
        · intro i hi
          simp at hi
          subst hi
          simp [pagesAcc]
        · intro hfuel r last hok
          cases hok
        · intro i hi _ _
          simp at hi
          subst hi
          simp
      · rw [if_neg h2]
        by_cases h3 : (oracle (Req.search ob q (min 100 (limit - (out.length : Int))) page)).data = []
        · rw [if_pos h3]
          refine ⟨by simp [List.range'], ?_, by simp, ?_, ?_⟩
          · intro i hi
            simp at hi
            subst hi
            simp [pagesAcc]
          · intro hfuel r last hok hlast
            simp only [List.getLast?_singleton, Option.some.injEq] at hlast
            subst hlast
            exact Or.inr (Or.inl h3)
          · intro i hi _ _
            simp at hi
            subst hi
            simp
        · rw [if_neg h3]
          by_cases h4 : metaCond (oracle (Req.search ob q (min 100 (limit - (out.length : Int))) page)) = true
          · rw [if_pos h4]
            refine ⟨by simp [List.range'], ?_, by simp, ?_, ?_⟩
            · intro i hi
              simp at hi
              subst hi
              simp [pagesAcc]
            · intro hfuel r last hok hlast
              simp only [List.getLast?_singleton, Option.some.injEq] at hlast
              subst hlast
              exact Or.inr (Or.inr h4)
            · intro i hi _ _
              simp at hi
              subst hi
              simp
          · rw [if_neg h4]
            refine ⟨by simp [List.range'], ?_, by simp, ?_, ?_⟩
            · intro i hi
              simp at hi
              subst hi
              simp [pagesAcc]
            · intro hfuel r last hok hlast
              exfalso
              omega
            · intro i hi _ hmeta
              simp at hi
              subst hi
              simp at hmeta
              exact absurd hmeta h4
    · rw [if_neg h1]
      refine ⟨by simp [List.range'], ?_, fun _ => h1, ?_, ?_⟩
      · intro i hi
        simp at hi
      · intro hfuel r last hok hlast
        simp at hlast
      · intro i hi
        simp at hi
  | succ m ih =>
    intro out page
    rw [searchLoop]
    by_cases h1 : ((out.length : Int)) < limit
    · rw [if_pos h1]
      dsimp only
      by_cases h2 : (oracle (Req.search ob q (min 100 (limit - (out.length : Int))) page)).status ≠ 200
      · rw [if_pos h2]
        refine ⟨by simp [List.range'], ?_, by simp, ?_, ?_⟩
        · intro i hi
          simp at hi
          subst hi
          simp [pagesAcc]
        · intro hfuel r last hok
          cases hok
        · intro i hi _ _
          simp at hi
          subst hi
          simp
      · rw [if_neg h2]
        by_cases h3 : (oracle (Req.search ob q (min 100 (limit - (out.length : Int))) page)).data = []
        · rw [if_pos h3]
          refine ⟨by simp [List.range'], ?_, by simp, ?_, ?_⟩
          · intro i hi
            simp at hi
            subst hi
            simp [pagesAcc]
          · intro hfuel r last hok hlast
            simp only [List.getLast?_singleton, Option.some.injEq] at hlast
            subst hlast
            exact Or.inr (Or.inl h3)
          · intro i hi _ _
            simp at hi
            subst hi
            simp
        · rw [if_neg h3]
          by_cases h4 : metaCond (oracle (Req.search ob q (min 100 (limit - (out.length : Int))) page)) = true
          · rw [if_pos h4]
            refine ⟨by simp [List.range'], ?_, by simp, ?_, ?_⟩
            · intro i hi
              simp at hi
              subst hi
              simp [pagesAcc]
            · intro hfuel r last hok hlast
              simp only [List.getLast?_singleton, Option.some.injEq] at hlast
              subst hlast
              exact Or.inr (Or.inr h4)
            · intro i hi _ _
              simp at hi
              subst hi
              simp
          · rw [if_neg h4]
            dsimp only
            obtain ⟨ih1, ih2, ih3, ih4, ih5⟩ :=
              ih (out ++ (oracle (Req.search ob q (min 100 (limit - (out.length : Int))) page)).data)
                (page + 1)
            have hdlen : 1 ≤ (oracle (Req.search ob q (min 100 (limit - (out.length : Int))) page)).data.length := by
              rcases hd : (oracle (Req.search ob q (min 100 (limit - (out.length : Int))) page)).data with _ | _
              · exact absurd hd h3
              · simp
            refine ⟨?_, ?_, by simp, ?_, ?_⟩
            · simp only [List.map_cons, List.length_cons, List.range'_succ]
              exact congrArg (List.cons page) ih1
            · intro i hi
              cases i with
              | zero => simp [pagesAcc]
              | succ j =>
                simp only [List.getElem_cons_succ, List.take_succ_cons, pagesAcc_cons]
                have hj : j < (searchLoop oracle ob q limit m
                    (out ++ (oracle (Req.search ob q (min 100 (limit - (out.length : Int))) page)).data)
                    (page + 1)).1.length := by
                  simpa using hi
                have hlp := ih2 j hj
                rw [hlp]
                congr 1
                push_cast [List.length_append]
                ring
            · intro hfuel r last hok hlast
              rcases htr : (searchLoop oracle ob q limit m
                  (out ++ (oracle (Req.search ob q (min 100 (limit - (out.length : Int))) page)).data)
                  (page + 1)).1 with _ | ⟨e2, tr2⟩
              · have hstop := ih3 htr
                push_cast [List.length_append] at hstop
                refine Or.inl ?_
                rw [pagesAcc_cons, pagesAcc_nil]
                dsimp only
                omega
              · have hfuel2 : (limit -
                    ((out ++ (oracle (Req.search ob q (min 100 (limit - (out.length : Int))) page)).data).length : Int)).toNat ≤ m := by
                  push_cast [List.length_append]
                  omega
                have hlast2 : (searchLoop oracle ob q limit m
                    (out ++ (oracle (Req.search ob q (min 100 (limit - (out.length : Int))) page)).data)
                    (page + 1)).1.getLast? = some last := by
                  rw [htr]
                  rw [htr] at hlast
                  exact List.getLast?_cons_cons.symm.trans hlast
                have hres := ih4 hfuel2 r last hok hlast2
                rw [htr] at hres
                rcases hres with hres | hres | hres
                · refine Or.inl ?_
                  rw [pagesAcc_cons]
                  dsimp only
                  push_cast [List.length_append] at hres
                  omega
                · exact Or.inr (Or.inl hres)
                · exact Or.inr (Or.inr hres)
            · intro i hi hdata hmeta
              cases i with
              | zero =>
                simp only [List.getElem_cons_zero] at hmeta
                exact absurd hmeta h4
              | succ j =>
                have hj : j < (searchLoop oracle ob q limit m
                    (out ++ (oracle (Req.search ob q (min 100 (limit - (out.length : Int))) page)).data)
                    (page + 1)).1.length := by
                  simpa using hi
                simp only [List.getElem_cons_succ] at hdata hmeta
                have hstep := ih5 j hj hdata hmeta
                simp only [List.length_cons]
                omega
    · rw [if_neg h1]
      refine ⟨by simp [List.range'], ?_, fun _ => h1, ?_, ?_⟩
      · intro i hi
        simp at hi
      · intro hfuel r last hok hlast
        simp at hlast
      · intro i hi
        simp at hi

theorem pySliceTo_len (l : List Item) (k : Int) (hk : 0 ≤ k) :
    ((pySliceTo l k).length : Int) ≤ k := by
  unfold pySliceTo
  rw [if_neg (not_lt.mpr hk)]
  simp only [List.length_take]
  have h1 : min k.toNat l.length ≤ k.toNat := min_le_left _ _
  omega

/-- Claim C4 (corrected to non-negative limits): for every non-negative
requested count and every server, `search_icons` returns at most `limit`
records; its requests carry consecutive page numbers `1, 2, …`; each
request's `limit` parameter is exactly `min 100 (limit - records
accumulated so far)`; an empty request trace happens only for
`limit ≤ 0`; and a normal return stops only because the limit was
reached, a page came back empty, or the metadata condition fired. -/
theorem C4_search_pagination (oracle : Req → Resp) (ob q : String) (limit : Int)
    (h : 0 ≤ limit) :
    (∀ r, (search_icons oracle ob q limit).2 = Except.ok r → (r.length : Int) ≤ limit) ∧
    ((search_icons oracle ob q limit).1.map (fun e => e.pageNum) =
      List.range' 1 (search_icons oracle ob q limit).1.length) ∧
    (∀ i, (hi : i < (search_icons oracle ob q limit).1.length) →
      (search_icons oracle ob q limit).1[i].limitParam =
        min 100 (limit - pagesAcc ((search_icons oracle ob q limit).1.take i))) ∧
    ((search_icons oracle ob q limit).1 = [] → limit ≤ 0) ∧
    (∀ r last, (search_icons oracle ob q limit).2 = Except.ok r →
      (search_icons oracle ob q limit).1.getLast? = some last →
      limit ≤ pagesAcc (search_icons oracle ob q limit).1 ∨
      last.resp.data = [] ∨ metaCond last.resp = true) := by
  obtain ⟨s1, s2, s3, s4, s5⟩ := searchLoop_spec oracle ob q limit limit.toNat [] 1
  have htr : (search_icons oracle ob q limit).1 =
      (searchLoop oracle ob q limit limit.toNat [] 1).1 := rfl
  have hok : ∀ r, (search_icons oracle ob q limit).2 = Except.ok r →
      ∃ o, (searchLoop oracle ob q limit limit.toNat [] 1).2 = Except.ok o ∧
        r = pySliceTo o limit := by
    intro r hr
    have hr2 : ((searchLoop oracle ob q limit limit.toNat [] 1).2.map
        (fun o => pySliceTo o limit)) = Except.ok r := hr
    rcases hres : (searchLoop oracle ob q limit limit.toNat [] 1).2 with e | o
    · rw [hres] at hr2
      cases hr2
    · rw [hres] at hr2
      simp only [Except.map] at hr2
      cases hr2
      exact ⟨o, rfl, rfl⟩
  refine ⟨?_, ?_, ?_, ?_, ?_⟩
  · intro r hr
    obtain ⟨o, -, rfl⟩ := hok r hr
    exact pySliceTo_len o limit h
  · rw [htr]
    exact s1
  · intro i hi
    have hi2 : i < (searchLoop oracle ob q limit limit.toNat [] 1).1.length := hi
    have h2 := s2 i hi2
    show (searchLoop oracle ob q limit limit.toNat [] 1).1[i].limitParam =
      min 100 (limit - pagesAcc (((searchLoop oracle ob q limit limit.toNat [] 1).1).take i))
    rw [h2]
    norm_num
  · intro he
    have h3 := s3 he
    simp at h3
    omega
  · intro r last hr hlast
    obtain ⟨o, ho, -⟩ := hok r hr
    rw [htr] at hlast ⊢
    have hfuel : (limit - (([] : List Item).length : Int)).toNat ≤ limit.toNat := by
      simp
    have := s4 hfuel o last ho hlast
    simpa using this

/-- Claim C4 is false as stated for a negative requested count (reachable
via `--limit -1`): the loop body never runs and `out[:limit]` returns the
empty list, whose length 0 exceeds `limit = -1`. -/
theorem C4_counterexample :
    (search_icons oracleFlat "priority" "q" (-1)).2 = Except.ok ([] : List Item) ∧
    ¬ (((([] : List Item).length : Int)) ≤ (-1 : Int)) := by
  refine ⟨by decide, by decide⟩

theorem C4_search_pagination_witness :
    (([itemN 1, itemN 2, itemN 3] : List Item).length : Int) ≤ 3 :=
  (C4_search_pagination oracleS "priority" "q" 3 (by decide)).1
    [itemN 1, itemN 2, itemN 3] (by decide)

/-- Claim C5: in the batch-by-query searcher, the moment a response page
(even a non-empty one, with fewer than `limit` records accumulated)
satisfies `meta.page * 1 >= meta.total` — `total` falling back to `count`
and then to `0`, a comparison of the page number against the total result
count — that page is the last one of the trace: no further page is
requested. -/
theorem C5_page_total_termination (oracle : Req → Resp) (ob q : String) (limit : Int)
    (i : Nat) (hi : i < (search_icons oracle ob q limit).1.length)
    (hdata : (search_icons oracle ob q limit).1[i].resp.data ≠ [])
    (hmeta : metaCond (search_icons oracle ob q limit).1[i].resp = true) :
    i + 1 = (search_icons oracle ob q limit).1.length :=
  (searchLoop_spec oracle ob q limit limit.toNat [] 1).2.2.2.2 i hi hdata hmeta

/-- At the concrete server `oracleMeta` (3 items on page 1, metadata with
`page = 1` and neither `total` nor `count`), the searcher with limit 10
stops after the single non-empty page: 3 of 10 records accumulated. -/
theorem C5_page_total_termination_witness :
    0 + 1 = (search_icons oracleMeta "priority" "q" 10).1.length :=
  C5_page_total_termination oracleMeta "priority" "q" 10 0 (by decide) (by decide) (by decide)

end GetIcons
